import Mathlib

/-!
Verification of the continuous Postgres downtime probe
(`postgres_downtime_probe.py`) against its natural-language specification.

Timestamps are modelled as natural numbers (the code only compares them and
stores them in pairs), durations in the cadence computation as rationals
(Python floats used only for subtraction and a sign test), and the store
capability (psycopg connection, DDL, insert, close) as an environment oracle
that says which of the calls consulted in an iteration raise an exception.
-/

namespace DowntimeProbe

/-- `ProbeStats` dataclass: three counters owned by the run loop. -/
structure ProbeStats where
  total_attempts : Nat
  success_count : Nat
  failure_count : Nat
  deriving Repr, DecidableEq

/-- `DowntimeTracker` dataclass: the list of closed downtime intervals and the
start timestamp of the currently open outage (`_current_start` in the source,
`none` when the tracker is in the `Up` state). -/
structure DowntimeTracker where
  intervals : List (Nat × Nat)
  current_start : Option Nat
  deriving Repr, DecidableEq

/-- `DowntimeTracker.__init__`: empty interval list, no open outage. -/
def DowntimeTracker.init : DowntimeTracker :=
  { intervals := [], current_start := none }

/-- `DowntimeTracker.record(event_time, success)` from the source:
on success close the open interval if any; on failure open one if none is
open. -/
def DowntimeTracker.record (t : DowntimeTracker) (event_time : Nat)
    (success : Bool) : DowntimeTracker :=
  if success then
    match t.current_start with
    | some s => { intervals := t.intervals ++ [(s, event_time)], current_start := none }
    | none => t
  else
    match t.current_start with
    | none => { t with current_start := some event_time }
    | some _ => t

/-- `DowntimeTracker.finalize(final_time)` from the source: close the open
interval at `final_time` if any. -/
def DowntimeTracker.finalize (t : DowntimeTracker) (final_time : Nat) :
    DowntimeTracker :=
  match t.current_start with
  | some s => { intervals := t.intervals ++ [(s, final_time)], current_start := none }
  | none => t

/-- Feed a sequence of `(timestamp, success)` outcomes to a tracker via
`record`, in list order. -/
def processEvents (t : DowntimeTracker) (events : List (Nat × Bool)) :
    DowntimeTracker :=
  events.foldl (fun t e => t.record e.1 e.2) t

/-- Number of maximal contiguous runs of `false` in a list of success flags,
given whether the element just before the list was a failure. -/
def countFailureRunsAux : Bool → List Bool → Nat
  | _, [] => 0
  | prevFail, b :: rest =>
    if b then countFailureRunsAux false rest
    else (if prevFail then 0 else 1) + countFailureRunsAux true rest

/-- Number of maximal contiguous runs of failures in a list of success
flags. -/
def countFailureRuns (flags : List Bool) : Nat :=
  countFailureRunsAux false flags

/-- Closed intervals plus the open one, if any: the number of intervals the
tracker would report if finalized right now. -/
def closedPlusOpen (t : DowntimeTracker) : Nat :=
  t.intervals.length + (if t.current_start.isSome then 1 else 0)

-- Probe loop model

/-- Environment oracle for one `probe_loop` iteration: whether each store
call the iteration may reach raises an exception (`some message`) or succeeds
(`none`), and whether the `conn.close()` inside the exception handler itself
raises. -/
structure ProbeEnv where
  connectErr : Option String
  bootErr : Option String
  insertErr : Option String
  closeFails : Bool
  deriving Repr, DecidableEq

/-- Observable result of the `try/except` body of one iteration. -/
structure TryOutcome where
  success : Bool
  error_message : Option String
  connAfter : Bool
  bootAfter : Bool
  ddlIssued : Bool
  deriving Repr, DecidableEq

/-- The `try/except` body of one `probe_loop` iteration, as a function of the
connection flag (`conn is None` in the source), the `bootstrap_attempted`
flag and the environment. `open_connection` is consulted only when no
connection is established, `ensure_table` only when `bootstrap_attempted` is
false; any exception takes the handler, which records the message, closes the
connection (its own failure is swallowed by the inner `try/except: pass`,
hence `closeFails` is never consulted) and clears the handle. -/
def tryAttempt (conn boot : Bool) (env : ProbeEnv) : TryOutcome :=
  if !conn && env.connectErr.isSome then
    { success := false, error_message := env.connectErr, connAfter := false,
      bootAfter := boot, ddlIssued := false }
  else if !boot && env.bootErr.isSome then
    { success := false, error_message := env.bootErr, connAfter := false,
      bootAfter := boot, ddlIssued := true }
  else if env.insertErr.isSome then
    { success := false, error_message := env.insertErr, connAfter := false,
      bootAfter := true, ddlIssued := !boot }
  else
    { success := true, error_message := none, connAfter := true,
      bootAfter := true, ddlIssued := !boot }

/-- Mutable state of `probe_loop` across iterations. -/
structure LoopState where
  conn : Bool
  bootstrap_attempted : Bool
  stats : ProbeStats
  tracker : DowntimeTracker
  deriving Repr, DecidableEq

/-- State of `probe_loop` just before the first iteration. -/
def initState : LoopState :=
  { conn := false, bootstrap_attempted := false,
    stats := ⟨0, 0, 0⟩, tracker := DowntimeTracker.init }

/-- One full loop iteration past the ceiling check: the `try/except` attempt,
then `stats.total_attempts += 1` and the success/failure counter, then
`downtime_tracker.record(attempt_time, success)`. -/
def iterate (s : LoopState) (attempt_time : Nat) (env : ProbeEnv) : LoopState :=
  let r := tryAttempt s.conn s.bootstrap_attempted env
  { conn := r.connAfter,
    bootstrap_attempted := r.bootAfter,
    stats := { total_attempts := s.stats.total_attempts + 1,
               success_count :=
                 s.stats.success_count + (if r.success then 1 else 0),
               failure_count :=
                 s.stats.failure_count + (if r.success then 0 else 1) },
    tracker := s.tracker.record attempt_time r.success }

/-- The source guard `args.max_attempts and stats.total_attempts >=
args.max_attempts`: a missing ceiling is `None`, and a ceiling of `0` is
falsy in Python, so neither ever triggers the break. -/
def ceilingReached (max_attempts : Option Int) (total : Nat) : Bool :=
  match max_attempts with
  | none => false
  | some m => if m = 0 then false else decide (m ≤ (total : Int))

/-- The `while not stop_flag` loop: each tick carries the wall-clock attempt
timestamp and the store environment for that iteration; the list ending
models the stop flag being observed. -/
def runLoop (max_attempts : Option Int) :
    LoopState → List (Nat × ProbeEnv) → LoopState
  | s, [] => s
  | s, (time, env) :: rest =>
    if ceilingReached max_attempts s.stats.total_attempts then s
    else runLoop max_attempts (iterate s time env) rest

/-- The `sleep_time = args.interval - duration; if sleep_time > 0:
time.sleep(sleep_time)` tail of an iteration: the amount of time slept. -/
def sleepAmount (interval duration : ℚ) : ℚ :=
  let sleep_time := interval - duration
  if sleep_time > 0 then sleep_time else 0

/-- Store-side calls issued by the `finally` block. -/
inductive StoreAction where
  | truncate
  | close
  deriving Repr, DecidableEq

/-- The `finally` block of `probe_loop`: finalize the tracker at `end_time`;
if a connection is still established, truncate the target table (the
surrounding `except Exception: pass` swallows a truncation failure, so
`truncateFails` affects nothing) and then close the connection. -/
def cleanup (s : LoopState) (end_time : Nat) (_truncateFails : Bool) :
    LoopState × List StoreAction :=
  let t := s.tracker.finalize end_time
  let truncActions := if s.conn then [StoreAction.truncate] else []
  let closeActions := if s.conn then [StoreAction.close] else []
  ({ s with tracker := t }, truncActions ++ closeActions)

-- Lemmas for the interval-counting property

theorem closedPlusOpen_record (t : DowntimeTracker) (time : Nat) (b : Bool) :
    closedPlusOpen (t.record time b)
      = closedPlusOpen t + (if !b && t.current_start.isNone then 1 else 0) := by
  cases b <;> cases hs : t.current_start <;>
    simp [DowntimeTracker.record, closedPlusOpen, hs]

theorem record_isSome (t : DowntimeTracker) (time : Nat) (b : Bool) :
    (t.record time b).current_start.isSome = !b := by
  cases b <;> cases hs : t.current_start <;>
    simp [DowntimeTracker.record, hs]

theorem finalize_length (t : DowntimeTracker) (final : Nat) :
    (t.finalize final).intervals.length = closedPlusOpen t := by
  cases hs : t.current_start <;>
    simp [DowntimeTracker.finalize, closedPlusOpen, hs]

theorem closedPlusOpen_processEvents (events : List (Nat × Bool)) :
    ∀ t : DowntimeTracker,
      closedPlusOpen (processEvents t events)
        = closedPlusOpen t
          + countFailureRunsAux t.current_start.isSome
              (events.map Prod.snd) := by
  induction events with
  | nil => intro t; simp [processEvents, countFailureRunsAux]
  | cons e rest ih =>
    intro t
    have step : processEvents t (e :: rest)
        = processEvents (t.record e.1 e.2) rest := rfl
    rw [step, ih (t.record e.1 e.2), closedPlusOpen_record,
      record_isSome]
    cases hb : e.2 <;> cases hs : t.current_start <;>
      simp [countFailureRunsAux, hb, hs, Nat.add_assoc, Nat.add_comm]

-- Lemmas about one iteration and the loop

theorem iterate_total (s : LoopState) (time : Nat) (env : ProbeEnv) :
    (iterate s time env).stats.total_attempts = s.stats.total_attempts + 1 := rfl

theorem iterate_counts (s : LoopState) (time : Nat) (env : ProbeEnv) :
    ((iterate s time env).stats.success_count = s.stats.success_count + 1 ∧
      (iterate s time env).stats.failure_count = s.stats.failure_count) ∨
    ((iterate s time env).stats.success_count = s.stats.success_count ∧
      (iterate s time env).stats.failure_count = s.stats.failure_count + 1) := by
  cases h : (tryAttempt s.conn s.bootstrap_attempted env).success with
  | true => left; constructor <;> simp [iterate, h]
  | false => right; constructor <;> simp [iterate, h]

theorem runLoop_cons (max_attempts : Option Int) (s : LoopState)
    (time : Nat) (env : ProbeEnv) (rest : List (Nat × ProbeEnv)) :
    runLoop max_attempts s ((time, env) :: rest)
      = if ceilingReached max_attempts s.stats.total_attempts then s
        else runLoop max_attempts (iterate s time env) rest := rfl

theorem runLoop_stats_inv (max_attempts : Option Int) :
    ∀ (ticks : List (Nat × ProbeEnv)) (s : LoopState),
      s.stats.success_count + s.stats.failure_count = s.stats.total_attempts →
      (runLoop max_attempts s ticks).stats.success_count
          + (runLoop max_attempts s ticks).stats.failure_count
        = (runLoop max_attempts s ticks).stats.total_attempts := by
  intro ticks
  induction ticks with
  | nil => intro s h; exact h
  | cons tick rest ih =>
    intro s h
    obtain ⟨time, env⟩ := tick
    rw [runLoop_cons]
    by_cases hc : ceilingReached max_attempts s.stats.total_attempts = true
    · simp only [hc, if_true]; exact h
    · simp only [hc, if_false, Bool.false_eq_true]
      refine ih (iterate s time env) ?_
      rcases iterate_counts s time env with ⟨hs, hf⟩ | ⟨hs, hf⟩ <;>
        rw [hs, hf, iterate_total] <;> omega

-- Lemmas for interval well-formedness and ordering

/-- Tracker invariant relative to a high-water timestamp `hw` (no event seen
so far is later than `hw`): every closed interval is well-formed and ends by
`hw`, closed intervals are pairwise ordered, and an open outage started by
`hw` and after every closed interval's end. -/
def trackerInv (t : DowntimeTracker) (hw : Nat) : Prop :=
  (∀ p ∈ t.intervals, p.1 ≤ p.2 ∧ p.2 ≤ hw) ∧
  t.intervals.Pairwise (fun a b => a.2 ≤ b.1) ∧
  (∀ s, t.current_start = some s → s ≤ hw ∧ ∀ p ∈ t.intervals, p.2 ≤ s)

theorem trackerInv_mono {t : DowntimeTracker} {hw hw' : Nat}
    (hle : hw ≤ hw') (hinv : trackerInv t hw) : trackerInv t hw' := by
  obtain ⟨hbound, hpair, hopen⟩ := hinv
  refine ⟨fun p hp => ⟨(hbound p hp).1, le_trans (hbound p hp).2 hle⟩, hpair,
    fun s hs => ⟨le_trans (hopen s hs).1 hle, (hopen s hs).2⟩⟩

theorem finalize_eq_record_true (t : DowntimeTracker) (time : Nat) :
    t.finalize time = t.record time true := by
  cases hs : t.current_start <;>
    simp [DowntimeTracker.finalize, DowntimeTracker.record, hs]

theorem record_inv (t : DowntimeTracker) (hw time : Nat) (b : Bool)
    (hinv : trackerInv t hw) (hle : hw ≤ time) :
    trackerInv (t.record time b) time := by
  obtain ⟨hbound, hpair, hopen⟩ := hinv
  cases b with
  | true =>
    cases hs : t.current_start with
    | none =>
      have : t.record time true = t := by simp [DowntimeTracker.record, hs]
      rw [this]
      exact trackerInv_mono hle ⟨hbound, hpair, hopen⟩
    | some s =>
      obtain ⟨hshw, hsend⟩ := hopen s hs
      have hrec : t.record time true
          = ⟨t.intervals ++ [(s, time)], none⟩ := by
        simp [DowntimeTracker.record, hs]
      rw [hrec]
      refine ⟨?_, ?_, ?_⟩
      · intro p hp
        rcases List.mem_append.mp hp with hold | hnew
        · exact ⟨(hbound p hold).1, le_trans (hbound p hold).2 hle⟩
        · rcases List.mem_singleton.mp hnew with rfl
          exact ⟨le_trans hshw hle, le_refl time⟩
      · refine List.pairwise_append.mpr ⟨hpair, List.pairwise_singleton _ _, ?_⟩
        intro a ha c hc
        rcases List.mem_singleton.mp hc with rfl
        exact hsend a ha
      · intro s' hs'
        simp at hs'
  | false =>
    cases hs : t.current_start with
    | none =>
      have hrec : t.record time false
          = { t with current_start := some time } := by
        simp [DowntimeTracker.record, hs]
      rw [hrec]
      refine ⟨fun p hp => ⟨(hbound p hp).1, le_trans (hbound p hp).2 hle⟩,
        hpair, ?_⟩
      intro s' hs'
      simp only [Option.some_inj] at hs'
      subst hs'
      exact ⟨le_refl time, fun p hp => le_trans (hbound p hp).2 hle⟩
    | some s =>
      have hrec : t.record time false = t := by
        simp [DowntimeTracker.record, hs]
      rw [hrec]
      exact trackerInv_mono hle ⟨hbound, hpair, hopen⟩

theorem processEvents_inv :
    ∀ (events : List (Nat × Bool)) (t : DowntimeTracker) (hw T : Nat),
      trackerInv t hw →
      List.Chain' (fun a b => a.1 ≤ b.1) events →
      (∀ e ∈ events.head?, hw ≤ e.1) →
      (∀ e ∈ events, e.1 ≤ T) → hw ≤ T →
      trackerInv (processEvents t events) T := by
  intro events
  induction events with
  | nil =>
    intro t hw T hinv _ _ _ hhwT
    exact trackerInv_mono hhwT hinv
  | cons e rest ih =>
    intro t hw T hinv hchain hhead hbnd hhwT
    have hhw_e : hw ≤ e.1 := hhead e rfl
    have hchain' := List.chain'_cons'.mp hchain
    have hstep : processEvents t (e :: rest)
        = processEvents (t.record e.1 e.2) rest := rfl
    rw [hstep]
    exact ih (t.record e.1 e.2) e.1 T
      (record_inv t hw e.1 e.2 hinv hhw_e)
      hchain'.2 hchain'.1
      (fun x hx => hbnd x (List.mem_cons_of_mem e hx))
      (hbnd e (List.mem_cons_self e rest))

-- Theorems

/-- C1: `record` implements exactly the four-case state machine (Up+failure
opens `Down(started_at = timestamp)` emitting no interval; Up+success is a
no-op; Down+success appends `[started_at, timestamp)` and returns to Up;
Down+failure is a no-op), and `finalize` appends `[started_at, final)` when
Down and is a no-op when Up. -/
theorem record_finalize_state_machine :
    ∀ (ivs : List (Nat × Nat)) (s time final : Nat),
      (DowntimeTracker.record ⟨ivs, none⟩ time false
        = ⟨ivs, some time⟩) ∧
      (DowntimeTracker.record ⟨ivs, none⟩ time true
        = ⟨ivs, none⟩) ∧
      (DowntimeTracker.record ⟨ivs, some s⟩ time true
        = ⟨ivs ++ [(s, time)], none⟩) ∧
      (DowntimeTracker.record ⟨ivs, some s⟩ time false
        = ⟨ivs, some s⟩) ∧
      (DowntimeTracker.finalize ⟨ivs, some s⟩ final
        = ⟨ivs ++ [(s, final)], none⟩) ∧
      (DowntimeTracker.finalize ⟨ivs, none⟩ final
        = ⟨ivs, none⟩) := by
  intro ivs s time final
  refine ⟨rfl, rfl, rfl, rfl, rfl, rfl⟩

/-- C2: for every finite sequence of `(timestamp, success)` outcomes fed to a
fresh tracker via `record` and then closed by `finalize`, the number of
emitted intervals equals the number of maximal contiguous runs of failures in
the sequence; in particular zero events and all-success sequences yield zero
intervals. -/
theorem intervals_count_failure_runs :
    (∀ (events : List (Nat × Bool)) (final : Nat),
      ((processEvents DowntimeTracker.init events).finalize final).intervals.length
        = countFailureRuns (events.map Prod.snd)) ∧
    (∀ final : Nat,
      (DowntimeTracker.init.finalize final).intervals.length = 0) ∧
    (∀ (events : List (Nat × Bool)) (final : Nat),
      (∀ e ∈ events, e.2 = true) →
      ((processEvents DowntimeTracker.init events).finalize final).intervals.length
        = 0) := by
  have general : ∀ (events : List (Nat × Bool)) (final : Nat),
      ((processEvents DowntimeTracker.init events).finalize final).intervals.length
        = countFailureRuns (events.map Prod.snd) := by
    intro events final
    rw [finalize_length, closedPlusOpen_processEvents]
    simp [DowntimeTracker.init, closedPlusOpen, countFailureRuns]
  refine ⟨general, ?_, ?_⟩
  · intro final
    rfl
  · intro events final hall
    rw [general events final]
    have : ∀ flags : List Bool, (∀ b ∈ flags, b = true) →
        ∀ prev : Bool, countFailureRunsAux prev flags = 0 := by
      intro flags
      induction flags with
      | nil => intro _ prev; rfl
      | cons b rest ih =>
        intro h prev
        have hb : b = true := h b (List.mem_cons_self b rest)
        have hrest : ∀ x ∈ rest, x = true := fun x hx => h x (List.mem_cons_of_mem b hx)
        simp [countFailureRunsAux, hb, ih hrest]
    exact this (events.map Prod.snd) (by
      intro b hb
      rcases List.mem_map.mp hb with ⟨e, he, rfl⟩
      exact hall e he) false

/-- Witness for `intervals_count_failure_runs`: its all-success conjunct at
the concrete sequence `[(0, true), (1, true)]` finalized at `2`. -/
theorem intervals_count_failure_runs_witness :
    ((processEvents DowntimeTracker.init [(0, true), (1, true)]).finalize 2).intervals.length
      = 0 :=
  intervals_count_failure_runs.2.2 [(0, true), (1, true)] 2 (by decide)

/-- C8: given inputs delivered in non-decreasing timestamp order (and a
finalize timestamp no earlier than every event), the emitted interval list is
well-formed and ordered: every interval `(s, e)` satisfies `e >= s`, and
consecutive intervals `(s1, e1)`, `(s2, e2)` satisfy `e1 <= s2`. -/
theorem intervals_wellformed_ordered
    (events : List (Nat × Bool)) (final : Nat)
    (hsorted : List.Chain' (fun a b => a.1 ≤ b.1) events)
    (hfinal : ∀ e ∈ events, e.1 ≤ final) :
    (∀ p ∈ ((processEvents DowntimeTracker.init events).finalize final).intervals,
      p.1 ≤ p.2) ∧
    List.Chain' (fun a b => a.2 ≤ b.1)
      ((processEvents DowntimeTracker.init events).finalize final).intervals := by
  have hinit : trackerInv DowntimeTracker.init 0 := by
    refine ⟨?_, ?_, ?_⟩ <;> simp [DowntimeTracker.init]
  have hrun : trackerInv (processEvents DowntimeTracker.init events) final :=
    processEvents_inv events DowntimeTracker.init 0 final hinit hsorted
      (fun e _ => Nat.zero_le e.1) hfinal (Nat.zero_le final)
  have hfin : trackerInv
      ((processEvents DowntimeTracker.init events).finalize final) final := by
    rw [finalize_eq_record_true]
    exact record_inv _ final final true hrun (le_refl final)
  exact ⟨fun p hp => (hfin.1 p hp).1, hfin.2.1.chain'⟩

/-- Witness for `intervals_wellformed_ordered` at a concrete sorted input
with two separate outages. -/
theorem intervals_wellformed_ordered_witness :
    (∀ p ∈ ((processEvents DowntimeTracker.init
        [(0, false), (2, true), (3, false), (4, false)]).finalize 6).intervals,
      p.1 ≤ p.2) ∧
    List.Chain' (fun a b => a.2 ≤ b.1)
      ((processEvents DowntimeTracker.init
        [(0, false), (2, true), (3, false), (4, false)]).finalize 6).intervals :=
  intervals_wellformed_ordered
    [(0, false), (2, true), (3, false), (4, false)] 6
    (by simp [List.chain'_cons]) (by decide)

/-- C9: `finalize` is idempotent: on a tracker in `Up` state it is a no-op,
and any further `finalize` after a first one leaves the tracker (hence the
interval list) unchanged. -/
theorem finalize_idempotent :
    ∀ (t : DowntimeTracker) (final final' : Nat),
      (t.current_start = none → t.finalize final = t) ∧
      ((t.finalize final).finalize final' = t.finalize final) := by
  intro t final final'
  constructor
  · intro h
    simp [DowntimeTracker.finalize, h]
  · cases hs : t.current_start with
    | none => simp [DowntimeTracker.finalize, hs]
    | some s => simp [DowntimeTracker.finalize, hs]

/-- Witness for the hypothesis of `finalize_idempotent` at a concrete
tracker in `Up` state. -/
theorem finalize_idempotent_witness :
    (DowntimeTracker.init.current_start = none →
      DowntimeTracker.init.finalize 5 = DowntimeTracker.init) ∧
    DowntimeTracker.init.current_start = none :=
  ⟨(finalize_idempotent DowntimeTracker.init 5 7).1, rfl⟩

/-- C4: after every completed iteration `success_count + failure_count =
total_attempts`: each performed attempt increments `total_attempts` by
exactly one and exactly one of the two outcome counters by exactly one, and
the equality holds after any run of the loop from the initial state. -/
theorem stats_counters_consistent :
    (∀ (s : LoopState) (time : Nat) (env : ProbeEnv),
      (iterate s time env).stats.total_attempts = s.stats.total_attempts + 1 ∧
      (((iterate s time env).stats.success_count = s.stats.success_count + 1 ∧
         (iterate s time env).stats.failure_count = s.stats.failure_count) ∨
       ((iterate s time env).stats.success_count = s.stats.success_count ∧
         (iterate s time env).stats.failure_count
           = s.stats.failure_count + 1))) ∧
    (∀ (max_attempts : Option Int) (ticks : List (Nat × ProbeEnv)),
      (runLoop max_attempts initState ticks).stats.success_count
          + (runLoop max_attempts initState ticks).stats.failure_count
        = (runLoop max_attempts initState ticks).stats.total_attempts) := by
  refine ⟨fun s time env => ⟨iterate_total s time env, iterate_counts s time env⟩, ?_⟩
  intro max_attempts ticks
  exact runLoop_stats_inv max_attempts ticks initState rfl

/-- C6: the amount slept at the end of an iteration equals
`max(0, configured_interval − elapsed)`: never negative, and when the
iteration's elapsed time meets or exceeds the interval no sleep happens. -/
theorem sleep_never_negative :
    ∀ interval duration : ℚ,
      sleepAmount interval duration = max 0 (interval - duration) ∧
      0 ≤ sleepAmount interval duration ∧
      (interval ≤ duration → sleepAmount interval duration = 0) := by
  intro i d
  by_cases h : i - d > 0
  · have hmax : max 0 (i - d) = i - d := max_eq_right h.le
    refine ⟨by simp [sleepAmount, h, hmax], ?_, ?_⟩
    · simpa [sleepAmount, h] using h.le
    · intro hle
      exfalso
      linarith
  · have h' : i - d ≤ 0 := not_lt.mp h
    have hmax : max 0 (i - d) = 0 := max_eq_left h'
    exact ⟨by simp [sleepAmount, h, hmax], by simp [sleepAmount, h],
      fun _ => by simp [sleepAmount, h]⟩

/-- Witness for `sleep_never_negative`: the spec's Scenario D, a 100ms
cadence with a 150ms attempt sleeps exactly zero. -/
theorem sleep_never_negative_witness :
    ((1 : ℚ)/10 ≤ 3/20) ∧ sleepAmount ((1 : ℚ)/10) (3/20) = 0 :=
  ⟨by norm_num, (sleep_never_negative ((1 : ℚ)/10) (3/20)).2.2 (by norm_num)⟩

/-- C10: on loop termination, when a connection handle is still established
the `finally` block truncates the target table and then closes the
connection (and emits no store call otherwise); its outcome is the same
whether or not the truncation fails (the failure is swallowed), and the
tracker is finalized at the end-of-run timestamp. -/
theorem cleanup_truncate_before_close :
    ∀ (s : LoopState) (end_time : Nat) (f f' : Bool),
      (cleanup s end_time f).2
        = (if s.conn then [StoreAction.truncate, StoreAction.close] else []) ∧
      cleanup s end_time f = cleanup s end_time f' ∧
      (cleanup s end_time f).1.tracker = s.tracker.finalize end_time := by
  intro s e f f'
  refine ⟨?_, rfl, rfl⟩
  cases h : s.conn <;> simp [cleanup, h]

theorem tryAttempt_failure (conn boot : Bool) (env : ProbeEnv)
    (h : (tryAttempt conn boot env).success = false) :
    (tryAttempt conn boot env).error_message.isSome = true ∧
    (tryAttempt conn boot env).connAfter = false := by
  rcases env with ⟨ce, be, ie, cf⟩
  cases conn <;> cases boot <;> cases ce <;> cases be <;> cases ie <;>
    simp_all [tryAttempt]

/-- C5: any store exception during an attempt — connect, bootstrap DDL, or
the insert itself — is caught inside the iteration and converted to a
failure outcome with the exception message captured; the connection handle
is dropped, the result does not depend on whether closing the handle fails
(that error is swallowed), and the loop simply continues with the next
tick. -/
theorem store_errors_contained :
    ∀ (s : LoopState) (time : Nat) (env : ProbeEnv),
      (tryAttempt s.conn s.bootstrap_attempted env).success = false →
      (tryAttempt s.conn s.bootstrap_attempted env).error_message.isSome = true ∧
      (tryAttempt s.conn s.bootstrap_attempted env).connAfter = false ∧
      (iterate s time env).stats.failure_count = s.stats.failure_count + 1 ∧
      (iterate s time env).tracker = s.tracker.record time false ∧
      (∀ b, tryAttempt s.conn s.bootstrap_attempted { env with closeFails := b }
        = tryAttempt s.conn s.bootstrap_attempted env) ∧
      (∀ (max_attempts : Option Int) (rest : List (Nat × ProbeEnv)),
        ceilingReached max_attempts s.stats.total_attempts = false →
        runLoop max_attempts s ((time, env) :: rest)
          = runLoop max_attempts (iterate s time env) rest) := by
  intro s time env hfail
  obtain ⟨hmsg, hconn⟩ := tryAttempt_failure s.conn s.bootstrap_attempted env hfail
  refine ⟨hmsg, hconn, by simp [iterate, hfail], by simp [iterate, hfail],
    fun b => rfl, ?_⟩
  intro max_attempts rest hc
  rw [runLoop_cons, if_neg (by simp [hc])]

/-- Witness for `store_errors_contained`: a refused connection on the very
first iteration. -/
theorem store_errors_contained_witness :
    (tryAttempt initState.conn initState.bootstrap_attempted
        ⟨some "connection refused", none, none, false⟩).success = false ∧
    (tryAttempt initState.conn initState.bootstrap_attempted
        ⟨some "connection refused", none, none, false⟩).error_message.isSome
      = true ∧
    (iterate initState 0
        ⟨some "connection refused", none, none, false⟩).stats.failure_count
      = initState.stats.failure_count + 1 :=
  have h := store_errors_contained initState 0
    ⟨some "connection refused", none, none, false⟩ rfl
  ⟨rfl, h.1, h.2.2.1⟩

/-- C3 counterexample: iteration 1 succeeds (connects and bootstraps),
iteration 2's insert fails so the handler invalidates the connection, yet
`bootstrap_attempted` stays `true`; iteration 3 then establishes a new
connection (`connAfter = true`) without re-attempting the table-creation DDL
(`ddlIssued = false`), contradicting the claim that the flag is reset
whenever the connection is invalidated. -/
theorem bootstrap_reset_counterexample :
    (iterate (iterate initState 0 ⟨none, none, none, false⟩) 1
        ⟨none, none, some "server closed the connection unexpectedly",
          false⟩).conn = false ∧
    (iterate (iterate initState 0 ⟨none, none, none, false⟩) 1
        ⟨none, none, some "server closed the connection unexpectedly",
          false⟩).bootstrap_attempted = true ∧
    (tryAttempt
        (iterate (iterate initState 0 ⟨none, none, none, false⟩) 1
          ⟨none, none, some "server closed the connection unexpectedly",
            false⟩).conn
        (iterate (iterate initState 0 ⟨none, none, none, false⟩) 1
          ⟨none, none, some "server closed the connection unexpectedly",
            false⟩).bootstrap_attempted
        ⟨none, none, none, false⟩).connAfter = true ∧
    (tryAttempt
        (iterate (iterate initState 0 ⟨none, none, none, false⟩) 1
          ⟨none, none, some "server closed the connection unexpectedly",
            false⟩).conn
        (iterate (iterate initState 0 ⟨none, none, none, false⟩) 1
          ⟨none, none, some "server closed the connection unexpectedly",
            false⟩).bootstrap_attempted
        ⟨none, none, none, false⟩).ddlIssued = false :=
  ⟨rfl, rfl, rfl, rfl⟩

/-- C3 (amended): the bootstrap flag is set only by reaching the DDL with a
connection and is never reset on invalidation: once set it persists across
iterations and no further DDL is issued for the rest of the run, even after
a reconnect; while it is unset, every iteration that has or successfully
establishes a connection re-attempts the DDL. -/
theorem bootstrap_once_per_run :
    ∀ (conn : Bool) (env : ProbeEnv) (s : LoopState) (time : Nat),
      ((tryAttempt conn true env).ddlIssued = false ∧
        (tryAttempt conn true env).bootAfter = true) ∧
      (conn = true ∨ env.connectErr = none →
        (tryAttempt conn false env).ddlIssued = true) ∧
      (s.bootstrap_attempted = true →
        (iterate s time env).bootstrap_attempted = true) := by
  intro conn env s time
  have hkept : ∀ c : Bool, (tryAttempt c true env).ddlIssued = false ∧
      (tryAttempt c true env).bootAfter = true := by
    intro c
    rcases env with ⟨ce, be, ie, cf⟩
    cases c <;> cases ce <;> cases be <;> cases ie <;> simp [tryAttempt]
  refine ⟨hkept conn, ?_, ?_⟩
  · intro hc
    rcases env with ⟨ce, be, ie, cf⟩
    rcases hc with hc | hc
    · subst hc
      cases ce <;> cases be <;> cases ie <;> simp [tryAttempt]
    · simp only at hc
      subst hc
      cases conn <;> cases be <;> cases ie <;> simp [tryAttempt]
  · intro hb
    have := (hkept s.conn).2
    simp [iterate, hb, this]

/-- Witness for `bootstrap_once_per_run`: with no bootstrap yet, a fresh
connection issues the DDL; and the flag set by a first successful iteration
persists through a second one. -/
theorem bootstrap_once_per_run_witness :
    (tryAttempt false false ⟨none, none, none, false⟩).ddlIssued = true ∧
    (iterate (iterate initState 0 ⟨none, none, none, false⟩) 1
        ⟨none, none, none, false⟩).bootstrap_attempted = true :=
  have h := bootstrap_once_per_run false ⟨none, none, none, false⟩
    (iterate initState 0 ⟨none, none, none, false⟩) 1
  ⟨h.2.1 (Or.inr rfl), h.2.2 rfl⟩

theorem ceilingReached_pos_iff (k total : Nat) (hk : 0 < k) :
    ceilingReached (some (k : Int)) total = true ↔ k ≤ total := by
  have hne : (k : Int) ≠ 0 := by
    exact_mod_cast Nat.pos_iff_ne_zero.mp hk
  simp [ceilingReached, hne]

/-- C7 counterexample: a configured maximum attempt count of `0` is falsy in
the guard `args.max_attempts and ...`, so the loop performs an attempt
anyway and `total_attempts` exceeds the configured maximum. -/
theorem max_attempts_zero_counterexample :
    (runLoop (some 0) initState
        [(0, ⟨none, none, none, false⟩)]).stats.total_attempts = 1 ∧
    ¬ ((runLoop (some 0) initState
        [(0, ⟨none, none, none, false⟩)]).stats.total_attempts ≤ 0) :=
  ⟨rfl, by decide⟩

/-- C7 (amended): for every positive configured maximum attempt count, once
`total_attempts` has reached the ceiling the loop stops without performing
another attempt, so `total_attempts` never exceeds the maximum; a configured
maximum of zero is falsy in Python and disables the ceiling entirely. -/
theorem max_attempts_ceiling (k : Nat) (hk : 0 < k) :
    (∀ (s : LoopState) (time : Nat) (env : ProbeEnv)
        (rest : List (Nat × ProbeEnv)),
      k ≤ s.stats.total_attempts →
      runLoop (some (k : Int)) s ((time, env) :: rest) = s) ∧
    (∀ ticks : List (Nat × ProbeEnv),
      (runLoop (some (k : Int)) initState ticks).stats.total_attempts ≤ k) := by
  constructor
  · intro s time env rest hge
    rw [runLoop_cons,
      if_pos ((ceilingReached_pos_iff k s.stats.total_attempts hk).mpr hge)]
  · have inv : ∀ (ticks : List (Nat × ProbeEnv)) (s : LoopState),
        s.stats.total_attempts ≤ k →
        (runLoop (some (k : Int)) s ticks).stats.total_attempts ≤ k := by
      intro ticks
      induction ticks with
      | nil => intro s h; exact h
      | cons tick rest ih =>
        intro s h
        obtain ⟨time, env⟩ := tick
        rw [runLoop_cons]
        by_cases hc :
            ceilingReached (some (k : Int)) s.stats.total_attempts = true
        · rw [if_pos hc]; exact h
        · rw [if_neg hc]
          refine ih (iterate s time env) ?_
          have hlt : s.stats.total_attempts < k := by
            rcases Nat.lt_or_ge s.stats.total_attempts k with hl | hg
            · exact hl
            · exact absurd
                ((ceilingReached_pos_iff k s.stats.total_attempts hk).mpr hg) hc
          rw [iterate_total]
          omega
    intro ticks
    exact inv ticks initState (Nat.zero_le k)

/-- Witness for `max_attempts_ceiling` at a ceiling of one: a state that has
already performed one attempt is left untouched, and a two-tick run from the
initial state performs at most one attempt. -/
theorem max_attempts_ceiling_witness :
    runLoop (some ((1 : Nat) : Int))
        (iterate initState 0 ⟨none, none, none, false⟩)
        [(1, ⟨none, none, none, false⟩)]
      = iterate initState 0 ⟨none, none, none, false⟩ ∧
    (runLoop (some ((1 : Nat) : Int)) initState
        [(0, ⟨none, none, none, false⟩),
         (1, ⟨none, none, none, false⟩)]).stats.total_attempts ≤ 1 :=
  have h := max_attempts_ceiling 1 (by decide)
  ⟨h.1 (iterate initState 0 ⟨none, none, none, false⟩) 1
      ⟨none, none, none, false⟩ [] (by decide),
    h.2 [(0, ⟨none, none, none, false⟩), (1, ⟨none, none, none, false⟩)]⟩

end DowntimeProbe
